import Mathlib

/-!
Shallow embedding of the `lunar_tools` repository (files `cam.py` and
`gl.py`) and machine-checked verification of the specification claims.

Pure fragments of the Python code are translated into Lean functions;
Python exceptions become `Except` values; the device, the SDL event queue
and the CUDA driver become explicit inputs (read functions, oracles).
Machine integers that matter here are small key codes and pixel values, so
they are modelled as `Int`/`Nat`; float pixel arithmetic happens only at
values where it is exact, so it is modelled over `ℚ`.
-/

set_option autoImplicit false

namespace LunarTools

/-! ### cam.py: frames and the WebCam capture pipeline -/

/-- Model of a numpy style 3-D pixel buffer of shape `(h, w, c)` with
`uint8` entries modelled as `Nat`.  `px i j k` is the value at row `i`,
column `j`, channel `k`. -/
structure Frame where
  h : Nat
  w : Nat
  c : Nat
  px : Nat → Nat → Nat → Nat

/-- Model of `np.zeros((h, w, 3), dtype=np.uint8)` (cam.py line 37). -/
def zerosFrame (h w : Nat) : Frame :=
  { h := h, w := w, c := 3, px := fun _ _ _ => 0 }

/-- Total element count of the buffer (`img.size` in numpy); for a
`uint8` buffer this is also its byte size. -/
def Frame.size (f : Frame) : Nat := f.h * f.w * f.c

/-- Model of `np.flip(img, axis=2)`: reverse the channel axis. -/
def flipAxis2 (f : Frame) : Frame :=
  { h := f.h, w := f.w, c := f.c, px := fun i j k => f.px i j (f.c - 1 - k) }

/-- Model of `np.flip(img, 1)`: reverse the column axis. -/
def flipAxis1 (f : Frame) : Frame :=
  { h := f.h, w := f.w, c := f.c, px := fun i j k => f.px i (f.w - 1 - j) k }

/-- Model of `WebCam.process_raw_image` (cam.py lines 126-131): an
optional channel reversal controlled by `shift_colors`, then an optional
column reversal controlled by `do_mirror`. -/
def process_raw_image (shift_colors do_mirror : Bool) (img : Frame) : Frame :=
  let img1 := if shift_colors then flipAxis2 img else img
  if do_mirror then flipAxis1 img1 else img1

/-- Model of `WebCam.get_raw_image` (cam.py lines 119-124).  The device
read result is `none` (the read produced no image) or `some img`.  A
missing or implausibly small image (fewer than 100 elements) makes the
function return with no value (Python bare `return`, i.e. `None`),
modelled as `none`; otherwise the image is returned unchanged. -/
def get_raw_image (readResult : Option Frame) : Option Frame :=
  match readResult with
  | none => none
  | some img => if img.size < 100 then none else some img

/-- The attribute state of a `WebCam` object that the claims refer to:
the two post-processing flags, the camera id, the configured shape and the
last published frame. -/
structure WebCamState where
  do_mirror : Bool
  shift_colors : Bool
  cam_id : Int
  shape_hw : Nat × Nat
  img_last : Frame

/-- Model of the attribute initialisation in `WebCam.__init__`
(cam.py lines 30-39): mirroring off, color shift on, and `img_last`
initialised to an all-zero `(h, w, 3)` buffer. -/
def webcam_init (cam_id : Int) (shape_hw : Nat × Nat) : WebCamState :=
  { do_mirror := false
    shift_colors := true
    cam_id := cam_id
    shape_hw := shape_hw
    img_last := zerosFrame shape_hw.1 shape_hw.2 }

/-- Model of `WebCam.get_img` (cam.py lines 133-134). -/
def get_img (s : WebCamState) : Frame := s.img_last

/-- Model of one iteration of `WebCam.threader_runfunc_cam`
(cam.py lines 106-117), driven by the raw device read of that iteration:
a failed read takes the repair path and leaves `img_last` unchanged, a
successful read publishes the processed frame. -/
def threader_step (s : WebCamState) (readResult : Option Frame) : WebCamState :=
  match get_raw_image readResult with
  | none => s
  | some img => { s with img_last := process_raw_image s.shift_colors s.do_mirror img }

/-- Runs the capture loop over a list of raw device read results. -/
def capture_run (s : WebCamState) (reads : List (Option Frame)) : WebCamState :=
  reads.foldl threader_step s

/-- Python exceptions raised during `WebCam` device acquisition. -/
inductive PyError
  | attributeError
  | valueError
deriving DecidableEq

/-- Outcome of the fuelled acquisition loop. -/
inductive InitOutcome
  | ok (device_ptr : String)
  | err (e : PyError)
  | outOfFuel
deriving DecidableEq

/-- Model of `WebCam.release` (cam.py lines 76-81) as invoked from the
acquisition loop: it assigns `threader_active` and then joins
`self.thread`.  During `__init__` the capture thread attribute has not
been created yet (cam.py line 43 runs only after `smart_init` returns),
so the attribute access raises `AttributeError`. -/
def release_in_acquisition (threadExists : Bool) : Except PyError Unit :=
  if threadExists then Except.ok () else Except.error PyError.attributeError

/-- Model of the `while True` loop of `WebCam.init_ubuntu`
(cam.py lines 57-70), with explicit fuel.  Each iteration first runs
`release`, then (for the first-available selector, while more than one
candidate remains) drops the current pointer and advances to the next
enumerated path, then reopens and reads once.  The first component of the
result records the device paths on which a read was attempted, in order. -/
def init_ubuntu_loop (cam_id : Int) (read : String → Option Frame)
    (threadExists : Bool) :
    Nat → List String → String → List String → List String × InitOutcome
  | 0, _, _, tr => (tr, InitOutcome.outOfFuel)
  | fuel + 1, device_paths, device_ptr, tr =>
    match release_in_acquisition threadExists with
    | Except.error e => (tr, InitOutcome.err e)
    | Except.ok _ =>
      let next :=
        if cam_id = -1 ∧ 1 < device_paths.length then
          let ps := device_paths.erase device_ptr
          (ps, ps.headD device_ptr)
        else (device_paths, device_ptr)
      match read next.2 with
      | some _ => (tr ++ [next.2], InitOutcome.ok next.2)
      | none => init_ubuntu_loop cam_id read threadExists fuel next.1 next.2 (tr ++ [next.2])

/-- Model of `WebCam.init_ubuntu` (cam.py lines 47-71): an empty
enumeration raises `ValueError` (no cameras found); otherwise the initial
pointer is the first enumerated path (selector `-1`, first available) or
the path built from the camera id, and the acquisition loop runs.
`threadExists` records whether `self.thread` already exists when the loop
body calls `self.release()`; during `__init__` it does not. -/
def init_ubuntu (cam_id : Int) (device_paths : List String)
    (read : String → Option Frame) (threadExists : Bool) (fuel : Nat) :
    List String × InitOutcome :=
  if device_paths = [] then ([], InitOutcome.err PyError.valueError)
  else
    let device_ptr :=
      if cam_id = -1 then device_paths.headD ""
      else "/dev/video" ++ toString cam_id
    init_ubuntu_loop cam_id read threadExists fuel device_paths device_ptr []

/-! ### gl.py: keycode conversion and peripheral events -/

/-- The deduplicated `special_keys_map` dictionary of `sdl_to_cv2_keycode`
(gl.py lines 114-138), as (SDL scancode, converted code) pairs.
SDL scancodes: Return 40, Escape 41, Backspace 42, Tab 43, Space 44,
F1 58, F2 59, F3 60, F4 61, Right 79, Left 80, Down 81, Up 82. -/
def special_keys_map : List (Int × Int) :=
  [(40, 13), (41, 27), (42, 8), (43, 9), (44, 32),
   (58, 0x700000), (59, 0x710000), (60, 0x720000), (61, 0x730000),
   (79, 0x270000), (80, 0x250000), (81, 0x280000), (82, 0x260000)]

/-- Model of `sdl_to_cv2_keycode` (gl.py lines 103-146).  SDL scancodes
for letters A-Z are 4-29 and for the digit row 1,...,9,0 are 30-39.  The
Python function returns an int on the explicit `return` statements,
modelled as `some`; on input `-1` it executes `pass` and falls off the end
of the function, which in Python yields `None`, modelled as `none`. -/
def sdl_to_cv2_keycode (sdl_keycode : Int) : Option Int :=
  if 4 ≤ sdl_keycode ∧ sdl_keycode ≤ 29 then
    some (sdl_keycode - 4 + 97)
  else if 30 ≤ sdl_keycode ∧ sdl_keycode ≤ 39 then
    some (sdl_keycode - 30 + 49)
  else
    match special_keys_map.lookup sdl_keycode with
    | some v => some v
    | none => if sdl_keycode = -1 then none else some (-1)

/-- Model of `PeripheralEvent` (gl.py lines 95-100).  `__init__` assigns
`keycode`, `mouse_button_state`, `mouse_posX` and `mouse_posY`; the
`pressed_key_code` attribute does not exist after construction and is only
assigned later by the backends, so it is modelled as an `Option` field that
construction leaves at `none`. -/
structure PeripheralEvent where
  keycode : Int
  mouse_button_state : Int
  mouse_posX : Int
  mouse_posY : Int
  pressed_key_code : Option Int
deriving DecidableEq

/-- Model of the `PeripheralEvent()` constructor. -/
def PeripheralEvent.construct : PeripheralEvent :=
  { keycode := -1
    mouse_button_state := -1
    mouse_posX := -1
    mouse_posY := -1
    pressed_key_code := none }

/-- Signal used to model `sys.exit(0)`. -/
inductive StepExit
  | exitProgram
deriving DecidableEq

/-- Model of the raw pressed-key computation of the scancode loop in
`gl_step` (gl.py lines 280-288).  The tracker update on line 283 uses `==`
(a comparison) instead of an assignment, so the tracker stays all zero and
`pressed_key_code` ends as the last scancode that is currently down, or
stays `-1` when none is down. -/
def gl_step_raw_key (key_states : Nat → Bool) : Int :=
  match ((List.range 512).filter key_states).getLast? with
  | some k => (k : Int)
  | none => -1

/-- Model of `Renderer.gl_step` (gl.py lines 254-301) for a poll window of
`num_polls` pending SDL events, a keyboard state that is constant over the
window, and no window-close event.  A held Escape key (scancode 41) calls
`sys.exit(0)`, modelled as `StepExit.exitProgram`.  `SDL_GetMouseState` is
called with both output pointers bound to the `mouse_posX` variable
(gl.py line 268), so after a poll that variable holds the mouse Y
coordinate (`_mouse_x` is never stored) and `mouse_posY` keeps its initial
value 0.  The raw key code is then converted with `sdl_to_cv2_keycode` and
stored in the `pressed_key_code` attribute of a fresh `PeripheralEvent`;
the `keycode` attribute is never reassigned. -/
def gl_step (running : Bool) (key_states : Nat → Bool) (num_polls : Nat)
    (mouse_state _mouse_x mouse_y : Int) : Except StepExit PeripheralEvent :=
  if running ∧ 0 < num_polls ∧ key_states 41 then Except.error StepExit.exitProgram
  else
    let raw : Int :=
      if running ∧ 0 < num_polls then gl_step_raw_key key_states else -1
    Except.ok
      { PeripheralEvent.construct with
        pressed_key_code := sdl_to_cv2_keycode raw
        mouse_button_state := if running ∧ 0 < num_polls then mouse_state else -1
        mouse_posX := if running ∧ 0 < num_polls then mouse_y else 0
        mouse_posY := 0 }

/-! ### gl.py: tensors and the render pipeline -/

/-- Model of a torch tensor: a shape together with a value for every
multi-index (index lists beyond the shape are simply never relevant).
Float values are modelled as `ℚ`; all pixel arithmetic performed by the
embedded code is exact at the values the claims are about. -/
structure GTensor where
  shape : List Nat
  px : List Nat → ℚ

/-- Errors raised by the normalization part of `gl_render`. -/
inductive RenderError
  | permuteDimMismatch
  | wrongChannels
deriving DecidableEq

/-- Model of `image.float() / 255` followed by `torch.clamp(image, 0, 1)`
(gl.py lines 320-323). -/
def scale_clamp (t : GTensor) : GTensor :=
  { shape := t.shape, px := fun ix => min 1 (max 0 (t.px ix / 255)) }

/-- Model of `image.permute((1, 0, 2))` (gl.py line 326): defined only for
a rank-3 tensor; on any other rank torch raises a RuntimeError because the
number of dimensions does not match the permutation. -/
def permute102 (t : GTensor) : Except RenderError GTensor :=
  if t.shape.length = 3 then
    Except.ok
      { shape := [t.shape.getD 1 0, t.shape.getD 0 0, t.shape.getD 2 0]
        px := fun ix => t.px [ix.getD 1 0, ix.getD 0 0, ix.getD 2 0] }
  else Except.error RenderError.permuteDimMismatch

/-- Model of the channel-count analysis of `gl_render`
(gl.py lines 328-340): 3 channels get an all-ones alpha channel appended,
4 channels pass through, a rank-2 tensor is concatenated with itself four
times along its last axis (`torch.cat((image,)*4, -1)`, which for shape
`(a, b)` yields shape `(a, 4*b)`), and any other shape raises the
wrong-number-of-channels exception. -/
def channel_fix (t : GTensor) : Except RenderError GTensor :=
  if t.shape.length = 3 then
    if t.shape.getD 2 0 = 3 then
      Except.ok
        { shape := [t.shape.getD 0 0, t.shape.getD 1 0, 4]
          px := fun ix => if ix.getD 2 0 < 3 then t.px ix else 1 }
    else if t.shape.getD 2 0 = 4 then Except.ok t
    else Except.error RenderError.wrongChannels
  else if t.shape.length = 2 then
    Except.ok
      { shape := [t.shape.getD 0 0, 4 * t.shape.getD 1 0]
        px := fun ix => t.px [ix.getD 0 0, ix.getD 1 0 % t.shape.getD 1 0] }
  else Except.error RenderError.wrongChannels

/-- Model of the normalization pipeline of `gl_render`
(gl.py lines 319-340): scale and clamp, transpose, channel fix, in source
order. -/
def gl_normalize (t : GTensor) : Except RenderError GTensor :=
  (permute102 (scale_clamp t)).bind channel_fix

/-- Classification of the object passed to `render` (gl.py lines 306-317
and 375-383): a torch tensor already on the GPU, a torch CPU tensor, a
numpy array, a PIL image, or an unsupported object. -/
inductive RenderInput
  | torchCuda (t : GTensor)
  | torchCpu (t : GTensor)
  | ndarray (t : GTensor)
  | pilImage (t : GTensor)
  | unknownObject

/-- GPU calls issued by `gl_render`, in order: the host-to-device transfer
of the input tensor, the lazy CUDA/OpenGL registration, and the four
interop calls of the upload protocol. -/
inductive GpuCall
  | toDevice
  | registerImage
  | mapResource
  | getMappedArray
  | copy2D
  | unmapResource
deriving DecidableEq

/-- Failing stages of the CUDA upload protocol. -/
inductive CudaFail
  | mapFail
  | getArrayFail
  | copyFail
  | unmapFail
deriving DecidableEq

/-- Oracle recording which CUDA calls report `cudaSuccess` in a run. -/
structure CudaOracle where
  mapOk : Bool
  getArrayOk : Bool
  copyOk : Bool
  unmapOk : Bool
deriving DecidableEq

/-- Model of the upload protocol of `gl_render` (gl.py lines 347-369):
map the graphics resource, get the mapped array, issue the 2-D
device-to-device copy, unmap.  Each step whose status is not success
raises `CudaException` immediately, abandoning the remaining steps; in
particular no unmap call is issued after a failed copy.  The result lists
the calls actually issued, in order, and the failing stage if any. -/
def gl_upload (o : CudaOracle) : List GpuCall × Option CudaFail :=
  if ¬ o.mapOk then ([GpuCall.mapResource], some CudaFail.mapFail)
  else if ¬ o.getArrayOk then
    ([GpuCall.mapResource, GpuCall.getMappedArray], some CudaFail.getArrayFail)
  else if ¬ o.copyOk then
    ([GpuCall.mapResource, GpuCall.getMappedArray, GpuCall.copy2D],
      some CudaFail.copyFail)
  else if ¬ o.unmapOk then
    ([GpuCall.mapResource, GpuCall.getMappedArray, GpuCall.copy2D,
      GpuCall.unmapResource], some CudaFail.unmapFail)
  else
    ([GpuCall.mapResource, GpuCall.getMappedArray, GpuCall.copy2D,
      GpuCall.unmapResource], none)

/-- Errors surfaced by `gl_render`. -/
inductive GlFail
  | unknownType
  | badInput (e : RenderError)
  | cuda (e : CudaFail)
deriving DecidableEq

/-- Model of `Renderer.gl_render` (gl.py lines 303-371) up to the final
peripheral-event poll: classify the input (host-resident inputs are
transferred to the GPU device first, an unsupported object raises before
any GPU call), run the normalization pipeline, and, when the renderer is
running, lazily run `cuda_setup` and then the upload protocol.  The result
lists the GPU calls performed, in order, together with the outcome. -/
def gl_render (image : RenderInput) (running cuda_is_setup : Bool)
    (o : CudaOracle) : List GpuCall × Except GlFail Unit :=
  let ingest : Option (GTensor × List GpuCall) :=
    match image with
    | RenderInput.torchCuda t => some (t, [])
    | RenderInput.torchCpu t => some (t, [GpuCall.toDevice])
    | RenderInput.ndarray t => some (t, [GpuCall.toDevice])
    | RenderInput.pilImage t => some (t, [GpuCall.toDevice])
    | RenderInput.unknownObject => none
  match ingest with
  | none => ([], Except.error GlFail.unknownType)
  | some (t, tr) =>
    match gl_normalize t with
    | Except.error e => (tr, Except.error (GlFail.badInput e))
    | Except.ok _ =>
      if ¬ running then (tr, Except.ok ())
      else
        let tr1 := tr ++ (if cuda_is_setup then [] else [GpuCall.registerImage])
        let up := gl_upload o
        (tr1 ++ up.1,
          match up.2 with
          | some f => Except.error (GlFail.cuda f)
          | none => Except.ok ())

/-- Errors surfaced by `cv2_render`. -/
inductive Cv2Fail
  | unknownType
  | exitProgram
deriving DecidableEq

/-- Model of `Renderer.cv2_render` (gl.py lines 374-403): an unsupported
object raises; a `waitKey` result of 27 (Escape) calls `sys.exit(0)`;
otherwise a fresh `PeripheralEvent` is returned whose `pressed_key_code`
attribute is set to the `waitKey` result and whose mouse fields are set to
`-1`.  The `keycode` attribute from the constructor is never reassigned. -/
def cv2_render (image : RenderInput) (cv2_keycode : Int) :
    Except Cv2Fail PeripheralEvent :=
  match image with
  | RenderInput.unknownObject => Except.error Cv2Fail.unknownType
  | _ =>
    if cv2_keycode = 27 then Except.error Cv2Fail.exitProgram
    else
      Except.ok
        { PeripheralEvent.construct with
          pressed_key_code := some cv2_keycode
          mouse_button_state := -1
          mouse_posX := -1
          mouse_posY := -1 }

/-! ### Concrete inputs used by witnesses and counterexamples -/

/-- A plausibly sized camera frame with constant pixel value 128. -/
def bigFrame : Frame :=
  { h := 576, w := 1024, c := 3, px := fun _ _ _ => 128 }

/-- An all-255 grayscale buffer of shape `(2, 3)`. -/
def gray255 : GTensor := { shape := [2, 3], px := fun _ => 255 }

/-- A five-channel image of shape `(2, 3, 5)`. -/
def img5 : GTensor := { shape := [2, 3, 5], px := fun _ => 0 }

/-! ### Helper lemmas -/

/-- The capture loop leaves `img_last` untouched while every read fails. -/
theorem capture_run_all_fail (s : WebCamState) (reads : List (Option Frame))
    (h : ∀ r ∈ reads, get_raw_image r = none) : capture_run s reads = s := by
  induction reads generalizing s with
  | nil => rfl
  | cons r rs ih =>
    have hr : get_raw_image r = none := h r (List.mem_cons_self r rs)
    have hstep : threader_step s r = s := by
      unfold threader_step
      rw [hr]
    have hrun : capture_run s (r :: rs) = capture_run (threader_step s r) rs := rfl
    rw [hrun, hstep]
    exact ih s (fun x hx => h x (List.mem_cons_of_mem r hx))

/-- With every key up, the raw pressed-key code of the scancode loop
stays `-1`. -/
theorem gl_step_raw_key_all_up (key_states : Nat → Bool)
    (h : ∀ k, key_states k = false) : gl_step_raw_key key_states = -1 := by
  have hfilter : (List.range 512).filter key_states = [] := by
    rw [List.filter_eq_nil_iff]
    intro a _
    simp [h a]
  unfold gl_step_raw_key
  rw [hfilter]
  rfl

/-! ### Claim theorems -/

/-- Claim C1, counterexample: with a successful map and get-array and a
failing device-to-device copy, `gl_upload` raises the copy failure without
having issued a single unmap call — the claim states that unmap is invoked
exactly once on this path. -/
theorem c1_counterexample :
    gl_upload { mapOk := true, getArrayOk := true, copyOk := false, unmapOk := true } =
      ([GpuCall.mapResource, GpuCall.getMappedArray, GpuCall.copy2D],
        some CudaFail.copyFail) ∧
    (gl_upload { mapOk := true, getArrayOk := true, copyOk := false, unmapOk := true
      }).1.count GpuCall.unmapResource = 0 := by
  exact ⟨rfl, rfl⟩

/-- Claim C1, amended: in the upload protocol of `gl_render`, if mapping
the graphics resource fails, the get-mapped-array, copy and unmap steps
are not invoked; and if the copy fails after a successful map, the error
is raised immediately and unmap is invoked zero times (the successful map
is leaked on this error path). -/
theorem c1_amended (o : CudaOracle) :
    (o.mapOk = false →
      gl_upload o = ([GpuCall.mapResource], some CudaFail.mapFail)) ∧
    (o.mapOk = true → o.getArrayOk = true → o.copyOk = false →
      gl_upload o =
        ([GpuCall.mapResource, GpuCall.getMappedArray, GpuCall.copy2D],
          some CudaFail.copyFail) ∧
      (gl_upload o).1.count GpuCall.unmapResource = 0) := by
  obtain ⟨m, g, c, u⟩ := o
  constructor
  · intro hm
    subst hm
    rfl
  · intro hm hg hc
    subst hm; subst hg; subst hc
    exact ⟨rfl, rfl⟩

/-- Claim C1, witness for the amended theorem at two concrete oracles. -/
theorem c1_witness :
    gl_upload { mapOk := false, getArrayOk := true, copyOk := true, unmapOk := true } =
      ([GpuCall.mapResource], some CudaFail.mapFail) ∧
    gl_upload { mapOk := true, getArrayOk := true, copyOk := false, unmapOk := false } =
      ([GpuCall.mapResource, GpuCall.getMappedArray, GpuCall.copy2D],
        some CudaFail.copyFail) :=
  ⟨(c1_amended { mapOk := false, getArrayOk := true, copyOk := true, unmapOk := true }).1 rfl,
   ((c1_amended { mapOk := true, getArrayOk := true, copyOk := false, unmapOk := false
      }).2 rfl rfl rfl).1⟩

/-- Claim C2, counterexample: with the first-available selector, two
enumerated devices and every read failing, acquisition does not release a
failed handle, does not retry the next path and does not exhaust the
candidate list — it raises `AttributeError` on the very first loop
iteration (the `release` call joins a capture thread that does not exist
yet during `__init__`), with zero device reads attempted. -/
theorem c2_counterexample :
    init_ubuntu (-1) ["/dev/video0", "/dev/video1"] (fun _ => none) false 10 =
      ([], InitOutcome.err PyError.attributeError) := by
  rfl

/-- Claim C2, amended: for every nonempty enumerated device list, device
acquisition run from `__init__` (where the capture thread attribute does
not exist yet) never reaches the release-and-retry logic: the first
acquisition-loop iteration raises `AttributeError` inside `release`, so
acquisition terminates fatally with zero device reads attempted, for every
selector and every device behaviour; an empty device list still raises the
no-cameras `ValueError`. -/
theorem c2_amended (cam_id : Int) (device_paths : List String)
    (read : String → Option Frame) (fuel : Nat)
    (hne : device_paths ≠ []) (hfuel : 0 < fuel) :
    init_ubuntu cam_id device_paths read false fuel =
      ([], InitOutcome.err PyError.attributeError) ∧
    init_ubuntu cam_id [] read false fuel =
      ([], InitOutcome.err PyError.valueError) := by
  constructor
  · unfold init_ubuntu
    rw [if_neg hne]
    cases fuel with
    | zero => exact absurd hfuel (Nat.lt_irrefl 0)
    | succ n => rfl
  · rfl

/-- Claim C2, witness for the amended theorem at a concrete device list. -/
theorem c2_witness :
    init_ubuntu 2 ["/dev/video2"] (fun _ => some bigFrame) false 3 =
      ([], InitOutcome.err PyError.attributeError) :=
  (c2_amended 2 ["/dev/video2"] (fun _ => some bigFrame) 3
    (List.cons_ne_nil _ _) (Nat.succ_pos 2)).1

/-- Claim C3: feeding the all-255 grayscale `(2, 3)` buffer into the
normalization pipeline of `gl_render` does not produce a `(3, 2, 4)`
all-ones buffer: the pipeline fails at `image.permute((1, 0, 2))` because
a rank-2 tensor cannot be permuted with a 3-index permutation, so the
grayscale branch of the channel check is unreachable.  Moreover that
branch, applied directly to the grayscale buffer, would concatenate along
the last axis and produce shape `(2, 12)`, not a 4-channel buffer. -/
theorem c3_grayscale_crashes :
    gl_normalize gray255 = Except.error RenderError.permuteDimMismatch ∧
    (match channel_fix gray255 with
      | Except.ok t => t.shape
      | Except.error _ => []) = [2, 12] := by
  exact ⟨rfl, rfl⟩

/-- Claim C4, counterexample: a numpy image of shape `(2, 3, 5)` passed to
the GPU backend does raise the fatal channel-count error, but only after
one GPU call has already been performed: the host-to-device transfer
`torch.from_numpy(image).to(cuda)` precedes the shape validation. -/
theorem c4_counterexample :
    gl_render (RenderInput.ndarray img5) true true
        { mapOk := true, getArrayOk := true, copyOk := true, unmapOk := true } =
      ([GpuCall.toDevice], Except.error (GlFail.badInput RenderError.wrongChannels)) ∧
    (gl_render (RenderInput.ndarray img5) true true
        { mapOk := true, getArrayOk := true, copyOk := true, unmapOk := true
      }).1.count GpuCall.toDevice = 1 := by
  exact ⟨rfl, rfl⟩

/-- Claim C4, amended: for every input image of shape `(h, w, 5)` on the
GPU backend, a fatal channel-count error is raised before any interop or
upload call (no registration, map, get-array, copy or unmap is performed),
but not before all GPU interaction: a host-resident input (numpy array,
CPU tensor or PIL image) is first transferred to the GPU device, so its
call trace is exactly the device transfer; only an already device-resident
tensor yields an empty trace. -/
theorem c4_amended (h w : Nat) (f : List Nat → ℚ)
    (running cuda_is_setup : Bool) (o : CudaOracle) :
    gl_render (RenderInput.ndarray { shape := [h, w, 5], px := f })
        running cuda_is_setup o =
      ([GpuCall.toDevice], Except.error (GlFail.badInput RenderError.wrongChannels)) ∧
    gl_render (RenderInput.torchCpu { shape := [h, w, 5], px := f })
        running cuda_is_setup o =
      ([GpuCall.toDevice], Except.error (GlFail.badInput RenderError.wrongChannels)) ∧
    gl_render (RenderInput.pilImage { shape := [h, w, 5], px := f })
        running cuda_is_setup o =
      ([GpuCall.toDevice], Except.error (GlFail.badInput RenderError.wrongChannels)) ∧
    gl_render (RenderInput.torchCuda { shape := [h, w, 5], px := f })
        running cuda_is_setup o =
      ([], Except.error (GlFail.badInput RenderError.wrongChannels)) := by
  exact ⟨rfl, rfl, rfl, rfl⟩

/-- Claim C5: on a present call of the GPU backend whose poll window
observes no pressed key, the raw code stays `-1` and its conversion
`sdl_to_cv2_keycode (-1)` executes the `pass` branch and implicitly
returns Python `None` — so the returned event carries `none`, not `-1`,
as its pressed-key code. -/
theorem c5_no_key_gives_none (running : Bool) (key_states : Nat → Bool)
    (num_polls : Nat) (ms mx my : Int) (ev : PeripheralEvent)
    (hkeys : ∀ k, key_states k = false)
    (hok : gl_step running key_states num_polls ms mx my = Except.ok ev) :
    ev.pressed_key_code = none ∧ sdl_to_cv2_keycode (-1) = none := by
  refine ⟨?_, rfl⟩
  have hraw := gl_step_raw_key_all_up key_states hkeys
  have h41 := hkeys 41
  unfold gl_step at hok
  rw [h41] at hok
  simp only [Bool.false_eq_true, and_false, false_and, if_false] at hok
  rw [hraw] at hok
  have hev :
      ({ PeripheralEvent.construct with
          pressed_key_code := sdl_to_cv2_keycode (if running ∧ 0 < num_polls then -1 else -1)
          mouse_button_state := if running ∧ 0 < num_polls then ms else -1
          mouse_posX := if running ∧ 0 < num_polls then my else 0
          mouse_posY := 0 } : PeripheralEvent) = ev := by
    exact Except.ok.inj hok
  rw [← hev]
  simp only [ite_self]
  rfl

/-- Claim C5, witness: a concrete run with no pending poll events and all
keys up yields an event whose pressed-key code is `none`. -/
theorem c5_witness :
    gl_step true (fun _ => false) 0 5 7 9 =
      Except.ok
        { keycode := -1, mouse_button_state := -1, mouse_posX := 0,
          mouse_posY := 0, pressed_key_code := none } ∧
    ({ keycode := -1, mouse_button_state := -1, mouse_posX := 0,
        mouse_posY := 0, pressed_key_code := none } : PeripheralEvent).pressed_key_code
      = none := by
  refine ⟨rfl, ?_⟩
  exact (c5_no_key_gives_none true (fun _ => false) 0 5 7 9 _ (fun _ => rfl) rfl).1

/-- Claim C6: in every capture-loop state in which no frame has been
published yet (every device read so far reported a read error), `get_img`
returns the frame installed by `__init__`: exactly the configured
`(height, width, 3)` shape with every pixel value zero. -/
theorem c6_initial_frame_all_zero (cam_id : Int) (hw : Nat × Nat)
    (reads : List (Option Frame))
    (hfail : ∀ r ∈ reads, get_raw_image r = none) :
    get_img (capture_run (webcam_init cam_id hw) reads) = zerosFrame hw.1 hw.2 ∧
    (get_img (capture_run (webcam_init cam_id hw) reads)).h = hw.1 ∧
    (get_img (capture_run (webcam_init cam_id hw) reads)).w = hw.2 ∧
    (get_img (capture_run (webcam_init cam_id hw) reads)).c = 3 ∧
    ∀ i j k, (get_img (capture_run (webcam_init cam_id hw) reads)).px i j k = 0 := by
  have hrun := capture_run_all_fail (webcam_init cam_id hw) reads hfail
  rw [hrun]
  exact ⟨rfl, rfl, rfl, rfl, fun _ _ _ => rfl⟩

/-- Claim C6, witness at the default configured shape after one failed
read. -/
theorem c6_witness :
    get_img (capture_run (webcam_init 0 (576, 1024)) [none]) =
      zerosFrame 576 1024 := by
  refine (c6_initial_frame_all_zero 0 (576, 1024) [none] ?_).1
  intro r hr
  rw [List.mem_singleton] at hr
  subst hr
  rfl

/-- Claim C7: `process_raw_image` applies exactly the two independently
toggleable steps, channel reversal first (when `shift_colors` is set) and
column reversal second (when `do_mirror` is set), preserving the shape;
with both flags off the frame is returned unchanged. -/
theorem c7_postprocess_pipeline (sc dm : Bool) (f : Frame) :
    (∀ i j k, (process_raw_image sc dm f).px i j k =
        f.px i (if dm then f.w - 1 - j else j) (if sc then f.c - 1 - k else k)) ∧
    (process_raw_image sc dm f).h = f.h ∧
    (process_raw_image sc dm f).w = f.w ∧
    (process_raw_image sc dm f).c = f.c ∧
    process_raw_image false false f = f := by
  cases sc <;> cases dm <;>
    exact ⟨fun i j k => rfl, rfl, rfl, rfl, rfl⟩

/-- Claim C8: `get_raw_image` reports a read error as the value `none`
(a Python bare `return`, not an exception) exactly when the device read
yields no image or an image below the fixed 100-element size floor, and
otherwise returns the image unchanged. -/
theorem c8_read_error_iff (r : Option Frame) :
    (get_raw_image r = none ↔
      r = none ∨ ∃ img, r = some img ∧ img.size < 100) ∧
    (∀ img, r = some img → 100 ≤ img.size → get_raw_image r = some img) := by
  cases r with
  | none =>
    constructor
    · simp [get_raw_image]
    · intro img h
      exact absurd h (by simp)
  | some img =>
    constructor
    · by_cases hs : img.size < 100
      · simp [get_raw_image, hs]
      · simp [get_raw_image, hs]
    · intro i hi h100
      have hii : img = i := Option.some.inj hi
      subst hii
      simp [get_raw_image, Nat.not_lt.mpr h100]

/-- Claim C8, witness: a plausibly sized frame passes through unchanged. -/
theorem c8_witness : get_raw_image (some bigFrame) = some bigFrame :=
  (c8_read_error_iff (some bigFrame)).2 bigFrame rfl
    (by norm_num [Frame.size, bigFrame])

/-- Claim C9: the keycode conversion maps the digit scancodes linearly,
which is correct for the keys 1 through 9 (scancodes 30-38 map to ASCII 49
to 57) but wrong for the 0 key: scancode 39 maps to 58, the ASCII code of
the colon, instead of 48, the ASCII code of the digit 0 as the claim
requires.  Escape (scancode 41) does map to 27. -/
theorem c9_digit_mapping :
    sdl_to_cv2_keycode 30 = some 49 ∧
    sdl_to_cv2_keycode 38 = some 57 ∧
    sdl_to_cv2_keycode 41 = some 27 ∧
    sdl_to_cv2_keycode 39 = some 58 ∧
    (58 : Int) ≠ 48 := by
  refine ⟨rfl, rfl, rfl, rfl, by decide⟩

/-- Claim C10: the `keycode` field that the `PeripheralEvent` constructor
initialises to `-1` is never reassigned by either backend — `gl_step` and
`cv2_render` both write the differently named `pressed_key_code`
attribute — so every returned event has `keycode = -1` regardless of the
observed key. -/
theorem c10_keycode_never_updated :
    (∀ (running : Bool) (key_states : Nat → Bool) (num_polls : Nat)
        (ms mx my : Int) (ev : PeripheralEvent),
      gl_step running key_states num_polls ms mx my = Except.ok ev →
        ev.keycode = -1) ∧
    (∀ (image : RenderInput) (ck : Int) (ev : PeripheralEvent),
      cv2_render image ck = Except.ok ev → ev.keycode = -1) := by
  constructor
  · intro running ks np ms mx my ev hok
    unfold gl_step at hok
    split at hok
    · exact absurd hok (by simp)
    · simp only [Except.ok.injEq] at hok
      rw [← hok]; rfl
  · intro image ck ev hok
    cases image with
    | unknownObject => simp [cv2_render] at hok
    | torchCuda t =>
      simp only [cv2_render] at hok
      split at hok
      · exact absurd hok (by simp)
      · simp only [Except.ok.injEq] at hok
        rw [← hok]; rfl
    | torchCpu t =>
      simp only [cv2_render] at hok
      split at hok
      · exact absurd hok (by simp)
      · simp only [Except.ok.injEq] at hok
        rw [← hok]; rfl
    | ndarray t =>
      simp only [cv2_render] at hok
      split at hok
      · exact absurd hok (by simp)
      · simp only [Except.ok.injEq] at hok
        rw [← hok]; rfl
    | pilImage t =>
      simp only [cv2_render] at hok
      split at hok
      · exact absurd hok (by simp)
      · simp only [Except.ok.injEq] at hok
        rw [← hok]; rfl

/-- Claim C10, witness: both backends applied at concrete inputs return
events whose `keycode` field is `-1`. -/
theorem c10_witness :
    gl_step false (fun _ => false) 0 0 0 0 =
      Except.ok
        { keycode := -1, mouse_button_state := -1, mouse_posX := 0,
          mouse_posY := 0, pressed_key_code := none } ∧
    cv2_render (RenderInput.ndarray { shape := [1], px := fun _ => 0 }) 5 =
      Except.ok
        { keycode := -1, mouse_button_state := -1, mouse_posX := -1,
          mouse_posY := -1, pressed_key_code := some 5 } ∧
    ({ keycode := -1, mouse_button_state := -1, mouse_posX := 0,
        mouse_posY := 0, pressed_key_code := none } : PeripheralEvent).keycode = -1 ∧
    ({ keycode := -1, mouse_button_state := -1, mouse_posX := -1,
        mouse_posY := -1, pressed_key_code := some 5 } : PeripheralEvent).keycode = -1 := by
  refine ⟨rfl, rfl, ?_, ?_⟩
  · exact c10_keycode_never_updated.1 false (fun _ => false) 0 0 0 0 _ rfl
  · exact c10_keycode_never_updated.2
      (RenderInput.ndarray { shape := [1], px := fun _ => 0 }) 5 _ rfl

end LunarTools
